import Mathlib

/-!
Verification of the quantum-cli-sdk circuit-optimization core.

This file gives a shallow embedding, in Lean 4, of the parts of the
repository that the specification talks about:

* src/quantum_cli_sdk/commands/optimize.py — the QASM parser
  (parse_qasm), the serializer (circuit_to_qasm), the optimization engine
  (optimize_circuit and its passes) and the depth estimator
  (estimate_circuit_depth);
* src/quantum_cli_sdk/transpiler.py — the TranspilerPass / TranspilerStage /
  TranspilerPipeline / PassManager framework and get_pass_manager.

Python dictionaries are embedded as insertion-ordered association lists,
Python exceptions as an explicit error type threaded through Except,
Python floats as exact rationals, and Python object identity (where a claim
depends on aliasing) as references into an explicit store.  The regular
expressions used by parse_qasm are embedded as deterministic character-level
scanners that implement the exact leftmost, greedy-with-backtracking
semantics of the corresponding Python patterns.
-/

/-- Python exception values, to the granularity the claims need. -/
inductive PyErr where
  | typeError
  | keyError
  | exc (msg : String)
deriving DecidableEq, Repr

/-- A parsed circuit operation: entries of circuit["operations"] in
parse_qasm (optimize.py line 74): name, params (empty string when the
parenthesized group is absent) and the stripped qubit expression. -/
structure Operation where
  name : String
  params : String
  qubits : String
deriving DecidableEq, Repr

/-- An entry of circuit["gate_definitions"] (optimize.py line 72). -/
structure GateDef where
  name : String
  params : String
  body : String
deriving DecidableEq, Repr

/-- The record built at optimize.py lines 135-145.  Python floats are
embedded as exact rationals. -/
structure OptimizationStats where
  original_gate_count : Nat
  optimized_gate_count : Nat
  gate_reduction : Int
  gate_reduction_percentage : Rat
  original_depth : Nat
  optimized_depth : Nat
  depth_reduction : Int
  depth_reduction_percentage : Rat
  optimization_level : Int
deriving DecidableEq, Repr

/-- The Circuit IR: the dict built by parse_qasm (optimize.py lines 67-77),
plus the optimization_stats key attached by optimize_circuit.  The qregs and
cregs dicts are embedded as insertion-ordered association lists. -/
structure Circuit where
  version : Option String
  includes : List String
  qregs : List (String × Nat)
  cregs : List (String × Nat)
  gate_definitions : List GateDef
  operations : List Operation
  optimization_stats : Option OptimizationStats := none
deriving DecidableEq, Repr

/-- Lookup in a Python dict embedded as an association list. -/
def pyDictGet {κ ν : Type} [DecidableEq κ] (d : List (κ × ν)) (k : κ) : Option ν :=
  match d with
  | [] => none
  | (k', v) :: rest => if k' = k then some v else pyDictGet rest k

/-- Python dict assignment d[k] = v: overwrites in place if the key exists
(keeping its position) and appends otherwise. -/
def pyDictInsert {κ ν : Type} [DecidableEq κ] (d : List (κ × ν)) (k : κ) (v : ν) :
    List (κ × ν) :=
  match d with
  | [] => [(k, v)]
  | (k', v') :: rest => if k' = k then (k, v) :: rest else (k', v') :: pyDictInsert rest k v

/-- OPTIMIZATION_LEVELS (optimize.py lines 21-26). -/
def OPTIMIZATION_LEVELS : List (Int × String) :=
  [(0, "No optimization"),
   (1, "Light optimization: gate cancellation, adjoint folding"),
   (2, "Medium optimization: commutation analysis, gate simplification"),
   (3, "Heavy optimization: resynthesis of subcircuits, template matching, qubit remapping")]

/-- estimate_circuit_depth (optimize.py lines 152-165): the code returns
len(circuit["operations"]) // 2 + 1. -/
def estimate_circuit_depth (circuit : Circuit) : Nat :=
  circuit.operations.length / 2 + 1

/-- The loop of cancel_adjacent_gates (optimize.py lines 179-198): index i,
skip_next flag, and the accumulated new_operations list. -/
def cancelGo (ops : List Operation) (i : Nat) (skip_next : Bool) (acc : List Operation) :
    List Operation :=
  if h : i < ops.length then
    if skip_next then
      cancelGo ops (i + 1) false acc
    else if h2 : i + 1 < ops.length then
      let current_op := ops.get ⟨i, h⟩
      let next_op := ops.get ⟨i + 1, h2⟩
      if current_op.name = next_op.name ∧ current_op.qubits = next_op.qubits ∧
          current_op.name ∈ ["h", "x", "y", "z"] then
        cancelGo ops (i + 1) true acc
      else
        cancelGo ops (i + 1) false (acc ++ [current_op])
    else
      cancelGo ops (i + 1) false (acc ++ [ops.get ⟨i, h⟩])
  else acc
termination_by ops.length - i

/-- cancel_adjacent_gates (optimize.py lines 167-201). -/
def cancel_adjacent_gates (circuit : Circuit) : Circuit :=
  { circuit with operations := cancelGo circuit.operations 0 false [] }

/-- fold_adjoint_gates (optimize.py lines 203-206): returns the circuit
unchanged. -/
def fold_adjoint_gates (circuit : Circuit) : Circuit := circuit

/-- commutation_optimization (optimize.py lines 208-211): identity. -/
def commutation_optimization (circuit : Circuit) : Circuit := circuit

/-- simplify_gate_sequences (optimize.py lines 213-216): identity. -/
def simplify_gate_sequences (circuit : Circuit) : Circuit := circuit

/-- depth_optimization (optimize.py lines 218-221): identity. -/
def depth_optimization (circuit : Circuit) (_target_depth : Option Int) : Circuit := circuit

/-- template_matching_optimization (optimize.py lines 223-226): identity. -/
def template_matching_optimization (circuit : Circuit) : Circuit := circuit

/-- qubit_remapping_optimization (optimize.py lines 228-231): identity. -/
def qubit_remapping_optimization (circuit : Circuit) (_num_qubits : Nat) : Circuit := circuit

/-- Python truthiness of an optional integer: None and 0 are falsy. -/
def pyTruthyOptInt : Option Int → Bool
  | none => false
  | some n => n ≠ 0

/-- Lines 107-150 of optimize.py: the pass applications selected by the
optimization level, followed by the construction and attachment of the
optimization_stats record.  (In the source this is the part of
optimize_circuit after the get_pass_manager call.) -/
def optimize_passes_and_stats (circuit0 : Circuit) (num_qubits : Nat)
    (target_depth : Option Int) (optimization_level : Int)
    (original_operations original_depth : Nat) : Circuit := Id.run do
  let mut circuit := circuit0
  if optimization_level ≥ 1 then
    circuit := cancel_adjacent_gates circuit
    circuit := fold_adjoint_gates circuit
  if optimization_level ≥ 2 then
    circuit := commutation_optimization circuit
    circuit := simplify_gate_sequences circuit
  if optimization_level ≥ 3 then
    if pyTruthyOptInt target_depth then
      circuit := depth_optimization circuit target_depth
    circuit := template_matching_optimization circuit
    circuit := qubit_remapping_optimization circuit num_qubits
  let optimized_operations := circuit.operations.length
  let optimized_depth := estimate_circuit_depth circuit
  let gate_reduction : Int := (original_operations : Int) - (optimized_operations : Int)
  let gate_reduction_pct : Rat :=
    if original_operations > 0 then ((gate_reduction : Rat) / (original_operations : Rat)) * 100
    else 0
  let depth_reduction : Int := (original_depth : Int) - (optimized_depth : Int)
  let depth_reduction_pct : Rat :=
    if original_depth > 0 then ((depth_reduction : Rat) / (original_depth : Rat)) * 100
    else 0
  return { circuit with
    optimization_stats := some {
      original_gate_count := original_operations
      optimized_gate_count := optimized_operations
      gate_reduction := gate_reduction
      gate_reduction_percentage := gate_reduction_pct
      original_depth := original_depth
      optimized_depth := optimized_depth
      depth_reduction := depth_reduction
      depth_reduction_percentage := depth_reduction_pct
      optimization_level := optimization_level } }

/-- optimize_circuit (optimize.py lines 86-150).  Line 99 interpolates
OPTIMIZATION_LEVELS[optimization_level] into a log message, raising KeyError
for a level outside 0-3.  Line 105 then calls get_pass_manager with one
positional argument although transpiler.get_pass_manager (transpiler.py
lines 483-489) takes none, which raises TypeError, so the remainder of the
function is unreachable. -/
def optimize_circuit (circuit : Circuit) (num_qubits : Nat) (target_depth : Option Int)
    (optimization_level : Int) : Except PyErr Circuit := do
  let _level_description ←
    match pyDictGet OPTIMIZATION_LEVELS optimization_level with
    | some d => Except.ok d
    | none => Except.error PyErr.keyError
  let original_operations := circuit.operations.length
  let original_depth := estimate_circuit_depth circuit
  let _pass_manager ← (Except.error PyErr.typeError : Except PyErr Unit)
  return optimize_passes_and_stats circuit num_qubits target_depth optimization_level
    original_operations original_depth

/-- optimize_circuit with the single slip at optimize.py line 105 repaired:
get_pass_manager is called with no argument, as its definition requires, and
its (unused) result no longer aborts the function.  Everything else is
identical to optimize_circuit. -/
def optimize_circuit_fixed (circuit : Circuit) (num_qubits : Nat) (target_depth : Option Int)
    (optimization_level : Int) : Except PyErr Circuit := do
  let _level_description ←
    match pyDictGet OPTIMIZATION_LEVELS optimization_level with
    | some d => Except.ok d
    | none => Except.error PyErr.keyError
  let original_operations := circuit.operations.length
  let original_depth := estimate_circuit_depth circuit
  return optimize_passes_and_stats circuit num_qubits target_depth optimization_level
    original_operations original_depth

/-- The ASCII whitespace class: exactly the characters matched by the
regex class backslash-s and stripped by Python str.strip(). -/
def isPySpace (c : Char) : Bool :=
  c == ' ' || c == '\t' || c == '\n' || c == '\r' || c == '\x0b' || c == '\x0c'

/-- Python str.strip() on a character list. -/
def pyStripChars (l : List Char) : List Char :=
  ((l.dropWhile isPySpace).reverse.dropWhile isPySpace).reverse

/-- Python str.strip() on a string. -/
def pyStrip (s : String) : String := String.mk (pyStripChars s.data)

/-- Python str.split(",") on a character list: cur accumulates the current
field in reverse. -/
def splitComma : List Char → List Char → List (List Char)
  | [], cur => [cur.reverse]
  | ',' :: rest, cur => cur.reverse :: splitComma rest []
  | c :: rest, cur => splitComma rest (c :: cur)

/-- The individual qubit expressions referenced by an operation: its qubits
field split on commas, each piece stripped. -/
def qubitExprList (qubits : String) : List String :=
  (splitComma qubits.data []).map (fun cs => String.mk (pyStripChars cs))

/-- Modelled from the spec: the rigorous circuit depth that section 4.4
requires of the depth estimator — the DAG critical path.  A per-qubit
"last operation depth" table is maintained; each operation's depth is 1 plus
the maximum depth recorded for the qubits it touches (0 for untouched
qubits), and the circuit depth is the maximum over all operations. -/
def critical_path_depth (circuit : Circuit) : Nat :=
  (circuit.operations.foldl
    (fun (st : List (String × Nat) × Nat) op =>
      let qs := qubitExprList op.qubits
      let d := 1 + (qs.map (fun q => (pyDictGet st.1 q).getD 0)).foldl max 0
      (qs.foldl (fun m q => pyDictInsert m q d) st.1, max st.2 d))
    ([], 0)).2

/-- The circuit of the level-1 cancellation test: h q[0]; h q[0]; cx q[0],q[1]. -/
def hhcxCircuit : Circuit :=
  { version := some "2.0", includes := ["qelib1.inc"], qregs := [("q", 2)], cregs := [],
    gate_definitions := [],
    operations := [⟨"h", "", "q[0]"⟩, ⟨"h", "", "q[0]"⟩, ⟨"cx", "", "q[0],q[1]"⟩] }

/-- The circuit of the non-cancelling test: h q[0]; x q[1]; h q[0]. -/
def hxhCircuit : Circuit :=
  { version := some "2.0", includes := ["qelib1.inc"], qregs := [("q", 2)], cregs := [],
    gate_definitions := [],
    operations := [⟨"h", "", "q[0]"⟩, ⟨"x", "", "q[1]"⟩, ⟨"h", "", "q[0]"⟩] }

/-- Two parallel single-qubit gates: h q[0]; h q[1] — true depth 1. -/
def parallelHHCircuit : Circuit :=
  { version := some "2.0", includes := [], qregs := [("q", 2)], cregs := [],
    gate_definitions := [],
    operations := [⟨"h", "", "q[0]"⟩, ⟨"h", "", "q[1]"⟩] }

/-- Three chained gates on one qubit: h q[0]; h q[0]; h q[0] — true depth 3. -/
def tripleHCircuit : Circuit :=
  { version := some "2.0", includes := [], qregs := [("q", 1)], cregs := [],
    gate_definitions := [],
    operations := [⟨"h", "", "q[0]"⟩, ⟨"h", "", "q[0]"⟩, ⟨"h", "", "q[0]"⟩] }

/-- Keyword arguments / options dicts passed around the transpiler
framework; their content is opaque to every claim. -/
abbrev PyKwargs := List (String × String)

/-- Python `x or default` for an optional string: None and the empty string
are falsy. -/
def pyOrStr : Option String → String → String
  | none, d => d
  | some s, d => if s = "" then d else s

/-- Python `options or {}` (transpiler.py line 166). -/
def pyOrDict : Option PyKwargs → PyKwargs
  | none => []
  | some d => d

/-- A TranspilerPass instance (transpiler.py lines 28-73): its name property
and its run method, over an arbitrary circuit representation σ (the Python
code types circuits as Any).  A raising run is an error result. -/
structure TranspilerPass (σ : Type) where
  name : String
  run : σ → PyKwargs → Except PyErr σ

/-- A TranspilerPass class object: its __name__ and its constructor
(instantiation may raise). -/
structure PassClass (σ : Type) where
  name : String
  init : PyKwargs → Except PyErr (TranspilerPass σ)

/-- TranspilerStage (transpiler.py lines 130-177). -/
structure TranspilerStage (σ : Type) where
  name : String
  description : String
  passes : List (TranspilerPass σ)

/-- TranspilerStage.__init__ (transpiler.py lines 133-142): the description
defaults when None or empty. -/
def mkTranspilerStage {σ : Type} (name : String) (description : Option String) :
    TranspilerStage σ :=
  { name := name, description := pyOrStr description ("Transpiler stage: " ++ name),
    passes := [] }

/-- TranspilerStage.add_pass (transpiler.py lines 144-154). -/
def TranspilerStage.add_pass {σ : Type} (stage : TranspilerStage σ) (p : TranspilerPass σ) :
    TranspilerStage σ :=
  { stage with passes := stage.passes ++ [p] }

/-- The loop of TranspilerStage.run (transpiler.py lines 169-175): passes in
list order; an exception from a pass is logged and re-raised unchanged,
aborting the loop. -/
def runPasses {σ : Type} (passes : List (TranspilerPass σ)) (result : σ) (options : PyKwargs) :
    Except PyErr σ :=
  match passes with
  | [] => .ok result
  | p :: rest =>
    match p.run result options with
    | .ok r => runPasses rest r options
    | .error e => .error e

/-- TranspilerStage.run (transpiler.py lines 156-177). -/
def TranspilerStage.run {σ : Type} (stage : TranspilerStage σ) (circuit : σ)
    (options : Option PyKwargs) : Except PyErr σ :=
  runPasses stage.passes circuit (pyOrDict options)

/-- A TranspilerPipeline object (transpiler.py lines 180-269).  Its mutable
registered_passes dict is held by reference into an explicit store so that
aliasing between pipelines is representable. -/
structure TranspilerPipeline (σ : Type) where
  name : String
  stages : List (TranspilerStage σ)
  registered_passes : Nat

/-- The store of registered_passes dict objects: each allocated dict gets the
next fresh reference. -/
structure DictStore (σ : Type) where
  dicts : List (Nat × List (String × PassClass σ))
  next : Nat

/-- Reading a dict object from the store. -/
def storeGet {σ : Type} (st : DictStore σ) (ref : Nat) : List (String × PassClass σ) :=
  (pyDictGet st.dicts ref).getD []

/-- Overwriting a dict object in the store. -/
def storeSet {σ : Type} (st : DictStore σ) (ref : Nat) (d : List (String × PassClass σ)) :
    DictStore σ :=
  { st with dicts := st.dicts.map (fun kv => if kv.1 = ref then (ref, d) else kv) }

/-- TranspilerPipeline.__init__ (transpiler.py lines 183-191): defaulted
name, no stages, and a freshly allocated empty registered_passes dict. -/
def TranspilerPipeline_init {σ : Type} (st : DictStore σ) (name : Option String) :
    TranspilerPipeline σ × DictStore σ :=
  ({ name := pyOrStr name "Quantum Transpiler Pipeline", stages := [],
     registered_passes := st.next },
   { dicts := st.dicts ++ [(st.next, [])], next := st.next + 1 })

/-- TranspilerPipeline.register_pass (transpiler.py lines 219-227): keys the
class by its __name__ in the pipeline's registered_passes dict. -/
def TranspilerPipeline.register_pass {σ : Type} (p : TranspilerPipeline σ)
    (pass_class : PassClass σ) (st : DictStore σ) : DictStore σ :=
  storeSet st p.registered_passes
    (pyDictInsert (storeGet st p.registered_passes) pass_class.name pass_class)

/-- PassManager (transpiler.py lines 272-403): process-wide registry of pass
classes and pipeline templates. -/
structure PassManager (σ : Type) where
  pass_classes : List (String × PassClass σ)
  pipeline_templates : List (String × TranspilerPipeline σ)

/-- get_pass_manager (transpiler.py lines 483-489): takes no parameters and
returns the module-level PassManager, a PassManager() before any
registration.  optimize_circuit's call with one positional argument is what
raises the TypeError of the C2 theorems. -/
def get_pass_manager {σ : Type} : PassManager σ :=
  { pass_classes := [], pipeline_templates := [] }

/-- PassManager.get_pass_class (transpiler.py lines 290-299). -/
def PassManager.get_pass_class {σ : Type} (pm : PassManager σ) (name : String) :
    Option (PassClass σ) :=
  pyDictGet pm.pass_classes name

/-- PassManager.create_pass (transpiler.py lines 301-320): None on an
unknown name; None when the constructor raises. -/
def PassManager.create_pass {σ : Type} (pm : PassManager σ) (name : String)
    (kwargs : PyKwargs) : Option (TranspilerPass σ) :=
  match pm.get_pass_class name with
  | none => none
  | some pass_class =>
    match pass_class.init kwargs with
    | .ok inst => some inst
    | .error _ => none

/-- PassManager.get_pipeline_template (transpiler.py lines 332-341). -/
def PassManager.get_pipeline_template {σ : Type} (pm : PassManager σ) (name : String) :
    Option (TranspilerPipeline σ) :=
  pyDictGet pm.pipeline_templates name

/-- PassManager.create_pipeline (transpiler.py lines 343-372): an unknown
template name yields a fresh empty pipeline named after it; a found template
is copied — a new pipeline object with new stage objects (sharing the pass
instances) and a fresh registered_passes dict populated from the
template's. -/
def PassManager.create_pipeline {σ : Type} (pm : PassManager σ) (template_name : Option String)
    (st : DictStore σ) : TranspilerPipeline σ × DictStore σ :=
  match template_name with
  | some tname =>
    match pm.get_pipeline_template tname with
    | none => TranspilerPipeline_init st (some tname)
    | some template =>
      let pr := TranspilerPipeline_init st (some template.name)
      let pipeline := { pr.1 with
        stages := template.stages.map (fun stage =>
          { (mkTranspilerStage stage.name (some stage.description) : TranspilerStage σ) with
              passes := stage.passes }) }
      let st2 := (storeGet pr.2 template.registered_passes).foldl
        (fun acc kv => pipeline.register_pass kv.2 acc) pr.2
      (pipeline, st2)
  | none => TranspilerPipeline_init st none

/-- A pass that always raises, for the fail-fast witness. -/
def failingPassA : TranspilerPass Nat := ⟨"A", fun _ _ => .error (PyErr.exc "boom")⟩

/-- A pass that succeeds unchanged, for the fail-fast witness. -/
def okPassB : TranspilerPass Nat := ⟨"B", fun c _ => .ok c⟩

/-- A pass class whose constructor always raises, for witnesses. -/
def badPassClass : PassClass Nat := ⟨"Bad", fun _ => .error (PyErr.exc "ctor failed")⟩

/-- A pass class whose constructor succeeds, for witnesses. -/
def gateReductionClass : PassClass Nat :=
  ⟨"GateReduction", fun _ => .ok ⟨"GateReduction", fun c _ => .ok c⟩⟩

/-- An empty dict store. -/
def emptyStore : DictStore Nat := ⟨[], 0⟩

/-- A pass manager with no registrations. -/
def emptyPassManager : PassManager Nat := ⟨[], []⟩

/-- A pass manager knowing only the raising class. -/
def badOnlyPassManager : PassManager Nat := ⟨[("Bad", badPassClass)], []⟩

/-- The template pipeline of the isolation witness, allocated in an empty
store. -/
def c10Template : TranspilerPipeline Nat := (TranspilerPipeline_init emptyStore (some "T")).1

/-- Store after allocating the template and registering one class on it. -/
def c10Store : DictStore Nat :=
  c10Template.register_pass gateReductionClass (TranspilerPipeline_init emptyStore (some "T")).2

/-- A pass manager holding the template under the name "default". -/
def c10PassManager : PassManager Nat := ⟨[], [("default", c10Template)]⟩

/-- The regex classes backslash-w and [a-zA-Z0-9_] (their ASCII fragment;
every string these scanners are applied to in this file is ASCII). -/
def isPyWord (c : Char) : Bool :=
  ('a' ≤ c && c ≤ 'z') || ('A' ≤ c && c ≤ 'Z') || ('0' ≤ c && c ≤ '9') || c == '_'

/-- The regex class backslash-d. -/
def isPyDigit (c : Char) : Bool := '0' ≤ c && c ≤ '9'

/-- Matching a literal at the head of the input; returns the remainder. -/
def dropLit : List Char → List Char → Option (List Char)
  | [], l => some l
  | p :: ps, c :: cs => if c = p then dropLit ps cs else none
  | _ :: _, [] => none

/-- The greedy step "one-or-more characters other than stop, then stop":
returns the (possibly empty) run before the first occurrence of stop, and
the remainder after it; none when stop does not occur. -/
def splitFirst (stop : Char) (l : List Char) : Option (List Char × List Char) :=
  match l.dropWhile (fun c => c != stop) with
  | _ :: after => some (l.takeWhile (fun c => c != stop), after)
  | [] => none

/-- One attempted match of OPENQASM backslash-s+ (backslash-d+ dot
backslash-d+) ; at the head of the input (optimize.py line 46).  All
quantifiers are greedy and, because each character class is disjoint from
the literal that follows it, the match is deterministic. -/
def matchVersionAt (l : List Char) : Option (List Char × List Char) :=
  match dropLit "OPENQASM".data l with
  | none => none
  | some r0 =>
    let w := r0.takeWhile isPySpace
    let r1 := r0.dropWhile isPySpace
    if w.isEmpty then none else
    let d1 := r1.takeWhile isPyDigit
    let r2 := r1.dropWhile isPyDigit
    if d1.isEmpty then none else
    match r2 with
    | '.' :: r3 =>
      let d2 := r3.takeWhile isPyDigit
      let r4 := r3.dropWhile isPyDigit
      if d2.isEmpty then none else
      match r4 with
      | ';' :: r5 => some (d1 ++ '.' :: d2, r5)
      | _ => none
    | _ => none

/-- re.search for the version pattern: the first position with a match. -/
def reSearchVersion : List Char → Option (List Char)
  | [] => none
  | c :: rest =>
    match matchVersionAt (c :: rest) with
    | some (g, _) => some g
    | none => reSearchVersion rest

/-- One attempted match of include backslash-s+ "([^"]+)"; at the head of
the input (optimize.py line 50). -/
def matchIncludeAt (l : List Char) : Option (List Char × List Char) :=
  match dropLit "include".data l with
  | none => none
  | some r0 =>
    let w := r0.takeWhile isPySpace
    let r1 := r0.dropWhile isPySpace
    if w.isEmpty then none else
    match r1 with
    | '\"' :: r2 =>
      match splitFirst '\"' r2 with
      | some (content, r3) =>
        if content.isEmpty then none
        else
          match r3 with
          | ';' :: r4 => some (content, r4)
          | _ => none
      | none => none
    | _ => none

/-- One attempted match of kw backslash-s+ (backslash-w+) [ (backslash-d+)
]; at the head of the input, for kw = qreg and kw = creg (optimize.py lines
53 and 57). -/
def matchRegAt (kw : List Char) (l : List Char) : Option ((List Char × List Char) × List Char) :=
  match dropLit kw l with
  | none => none
  | some r0 =>
    let w := r0.takeWhile isPySpace
    let r1 := r0.dropWhile isPySpace
    if w.isEmpty then none else
    let name := r1.takeWhile isPyWord
    let r2 := r1.dropWhile isPyWord
    if name.isEmpty then none else
    match r2 with
    | '[' :: r3 =>
      let digits := r3.takeWhile isPyDigit
      let r4 := r3.dropWhile isPyDigit
      if digits.isEmpty then none else
      match r4 with
      | ']' :: ';' :: r5 => some ((name, digits), r5)
      | _ => none
    | _ => none

/-- One attempted match of gate backslash-s+ (backslash-w+) backslash-s+
([^\x7b]+) \x7b ([^\x7d]+) \x7d at the head of the input (optimize.py line
61).  The params group [^\x7b]+ overlaps the whitespace class, so when the
open brace directly follows the whitespace run the engine backtracks one
whitespace character into the params group (needing the run to have length
at least 2); otherwise the greedy split at the first open brace is exact. -/
def matchGateAt (l : List Char) : Option ((List Char × List Char × List Char) × List Char) :=
  match dropLit "gate".data l with
  | none => none
  | some r0 =>
    let w1 := r0.takeWhile isPySpace
    let r1 := r0.dropWhile isPySpace
    if w1.isEmpty then none else
    let name := r1.takeWhile isPyWord
    let r2 := r1.dropWhile isPyWord
    if name.isEmpty then none else
    let w2 := r2.takeWhile isPySpace
    let r3 := r2.dropWhile isPySpace
    if w2.isEmpty then none else
    match splitFirst '\x7b' r3 with
    | none => none
    | some (ps, r4) =>
      let params? : Option (List Char) :=
        if ps.isEmpty then
          match w2.reverse with
          | cw :: _ :: _ => some [cw]
          | _ => none
        else some ps
      match params? with
      | none => none
      | some params =>
        match splitFirst '\x7d' r4 with
        | none => none
        | some (body, r5) => if body.isEmpty then none else some ((name, params, body), r5)

/-- One attempted match of ([a-zA-Z0-9_]+) ( backslash-( ([^)]*)
backslash-) )? backslash-s+ ([^;]+); at the head of the input (optimize.py
line 64).  The qubits group [^;]+ overlaps the whitespace class, so when the
semicolon directly follows the whitespace run the engine backtracks one
whitespace character into the qubits group (needing the run to have length
at least 2); otherwise the greedy split at the first semicolon is exact. -/
def matchOpAt (l : List Char) : Option ((List Char × List Char × List Char) × List Char) :=
  let name := l.takeWhile isPyWord
  let r1 := l.dropWhile isPyWord
  if name.isEmpty then none else
  let pq : Option (List Char × List Char) :=
    match r1 with
    | '(' :: r2 =>
      match splitFirst ')' r2 with
      | some (ps, r3) => some (ps, r3)
      | none => none
    | _ => some ([], r1)
  match pq with
  | none => none
  | some (params, r2) =>
    let w := r2.takeWhile isPySpace
    let r3 := r2.dropWhile isPySpace
    if w.isEmpty then none else
    match splitFirst ';' r3 with
    | some (q, after) =>
      if q.isEmpty then
        match w.reverse with
        | cw :: _ :: _ => some ((name, params, [cw]), after)
        | _ => none
      else some ((name, params, q), after)
    | none => none

/-- re.findall's scan: try a match at each position; on success record the
groups and continue after the match, otherwise advance one character.  The
fuel argument starts at the input length; every successful match consumes at
least one character, so this fuel never runs out (reFindallFuel_eq_of_le
below makes that exact for the matchers used here). -/
def reFindallFuel {G : Type} (matchAt : List Char → Option (G × List Char)) :
    Nat → List Char → List G
  | 0, _ => []
  | _ + 1, [] => []
  | fuel + 1, c :: rest =>
    match matchAt (c :: rest) with
    | some (g, after) => g :: reFindallFuel matchAt fuel after
    | none => reFindallFuel matchAt fuel rest

/-- re.findall for a given single-position matcher. -/
def reFindall {G : Type} (matchAt : List Char → Option (G × List Char)) (l : List Char) :
    List G :=
  reFindallFuel matchAt l.length l

/-- Python int() on the digit string captured by a size group. -/
def natOfDigits (ds : List Char) : Nat :=
  ds.foldl (fun acc c => 10 * acc + (c.toNat - '0'.toNat)) 0

/-- The names excluded from the operations list (optimize.py line 76). -/
def operationNameExclusions : List String := ["qreg", "creg", "include", "OPENQASM", "gate"]

/-- parse_qasm (optimize.py lines 28-84) applied to the text content of the
source file (the enclosing function reads that text from disk and returns
None when the read raises; no step below can raise). -/
def parse_qasm_content (content : String) : Circuit :=
  let cs := content.data
  let version := (reSearchVersion cs).map String.mk
  let includes := (reFindall matchIncludeAt cs).map String.mk
  let qreg_matches := reFindall (matchRegAt "qreg".data) cs
  let qregs := qreg_matches.foldl
    (fun d nv => pyDictInsert d (String.mk nv.1) (natOfDigits nv.2)) []
  let creg_matches := reFindall (matchRegAt "creg".data) cs
  let cregs := creg_matches.foldl
    (fun d nv => pyDictInsert d (String.mk nv.1) (natOfDigits nv.2)) []
  let gate_defs := reFindall matchGateAt cs
  let operations := reFindall matchOpAt cs
  { version := version,
    includes := includes,
    qregs := qregs,
    cregs := cregs,
    gate_definitions := gate_defs.map (fun g =>
      { name := String.mk g.1, params := String.mk (pyStripChars g.2.1),
        body := String.mk (pyStripChars g.2.2) }),
    operations := (operations.filter (fun o =>
        !(operationNameExclusions.contains (String.mk o.1)))).map (fun o =>
      { name := String.mk o.1, params := String.mk o.2.1,
        qubits := String.mk (pyStripChars o.2.2) }),
    optimization_stats := none }

/-- The f-string interpolation of the version field (optimize.py line 246):
Python renders None as the four letters None. -/
def pyStrOfOptVersion : Option String → String
  | none => "None"
  | some s => s

/-- The version header line emitted at optimize.py line 246. -/
def version_line (circuit : Circuit) : String :=
  "OPENQASM " ++ pyStrOfOptVersion circuit.version ++ ";"

/-- The include lines emitted at optimize.py lines 249-250. -/
def include_lines (circuit : Circuit) : List String :=
  circuit.includes.map (fun inc => "include \"" ++ inc ++ "\";")

/-- The qreg lines emitted at optimize.py lines 253-254. -/
def qreg_lines (circuit : Circuit) : List String :=
  circuit.qregs.map (fun nv => "qreg " ++ nv.1 ++ "[" ++ toString nv.2 ++ "];")

/-- The creg lines emitted at optimize.py lines 257-258. -/
def creg_lines (circuit : Circuit) : List String :=
  circuit.cregs.map (fun nv => "creg " ++ nv.1 ++ "[" ++ toString nv.2 ++ "];")

/-- The three lines per gate definition emitted at optimize.py lines
261-264. -/
def gate_lines (circuit : Circuit) : List String :=
  (circuit.gate_definitions.map (fun g =>
    ["gate " ++ g.name ++ " " ++ g.params ++ " \x7b", "  " ++ g.body, "\x7d"])).flatten

/-- The operation lines emitted at optimize.py lines 267-269; the params
parenthetical is omitted for a falsy (empty) params string. -/
def operation_lines (circuit : Circuit) : List String :=
  circuit.operations.map (fun op =>
    op.name ++ (if op.params ≠ "" then "(" ++ op.params ++ ")" else "") ++ " " ++
      op.qubits ++ ";")

/-- The qasm_lines list built by circuit_to_qasm (optimize.py lines
243-269). -/
def qasm_lines (circuit : Circuit) : List String :=
  version_line circuit ::
    (include_lines circuit ++ qreg_lines circuit ++ creg_lines circuit ++
      gate_lines circuit ++ operation_lines circuit)

/-- circuit_to_qasm (optimize.py lines 233-271). -/
def circuit_to_qasm (circuit : Circuit) : String :=
  String.intercalate "\n" (qasm_lines circuit)

/-- A QASM source whose gate definition body holds two operations; the
second one is also collected as a top-level operation by the operations
regex, so serialization duplicates it and reparsing changes the IR. -/
def gateRoundTripSource : String := "OPENQASM 2.0;\ngate foo a \x7b h a; x a; \x7d\n"

/-- A QASM source with no OPENQASM header: the parser leaves version None. -/
def noVersionSource : String := "qreg q[1];\nh q[0];"

/-- Whether the second list starts with the first (character lists). -/
def startsWithChars : List Char → List Char → Bool
  | [], _ => true
  | _ :: _, [] => false
  | p :: ps, c :: cs => c == p && startsWithChars ps cs

/-- Whether s starts with pre. -/
def strStartsWith (pre s : String) : Bool := startsWithChars pre.data s.data

theorem pyDictGet_append {κ ν : Type} [DecidableEq κ] (d₁ d₂ : List (κ × ν)) (k : κ) :
    pyDictGet (d₁ ++ d₂) k =
      match pyDictGet d₁ k with
      | some v => some v
      | none => pyDictGet d₂ k := by
  induction d₁ with
  | nil => simp [pyDictGet]
  | cons kv rest ih =>
    obtain ⟨k', v⟩ := kv
    by_cases h : k' = k <;> simp [pyDictGet, h, ih]

theorem pyDictGet_none_of_keys_lt {ν : Type} (d : List (Nat × ν)) (n : Nat)
    (h : ∀ kv ∈ d, kv.1 < n) : pyDictGet d n = none := by
  induction d with
  | nil => rfl
  | cons kv rest ih =>
    have hk : kv.1 ≠ n := Nat.ne_of_lt (h kv (by simp))
    simp [pyDictGet, hk, ih fun kv hkv => h kv (by simp [hkv])]

theorem pyDictGet_map_overwrite {ν : Type} (l : List (Nat × ν)) (r r' : Nat) (d : ν)
    (h : r ≠ r') :
    pyDictGet (l.map (fun kv => if kv.1 = r' then (r', d) else kv)) r = pyDictGet l r := by
  induction l with
  | nil => rfl
  | cons kv rest ih =>
    obtain ⟨k, v⟩ := kv
    rw [List.map_cons]
    by_cases hk : k = r'
    · subst hk
      rw [show (if (k, v).1 = k then (k, d) else (k, v)) = (k, d) from if_pos rfl]
      simp [pyDictGet, Ne.symm h, ih]
    · rw [show (if (k, v).1 = r' then (r', d) else (k, v)) = (k, v) from if_neg hk]
      by_cases hkr : k = r <;> simp [pyDictGet, hkr, ih]

theorem storeGet_storeSet_ne {σ : Type} (st : DictStore σ) (r r' : Nat)
    (d : List (String × PassClass σ)) (h : r ≠ r') :
    storeGet (storeSet st r' d) r = storeGet st r := by
  unfold storeGet storeSet
  rw [pyDictGet_map_overwrite st.dicts r r' d h]

theorem storeGet_foldRegister_ne {σ : Type} (l : List (String × PassClass σ))
    (p : TranspilerPipeline σ) (st : DictStore σ) (T : Nat) (h : T ≠ p.registered_passes) :
    storeGet (l.foldl (fun acc kv => p.register_pass kv.2 acc) st) T = storeGet st T := by
  induction l generalizing st with
  | nil => rfl
  | cons kv rest ih =>
    rw [List.foldl_cons, ih, TranspilerPipeline.register_pass, storeGet_storeSet_ne _ _ _ _ h]

theorem storeGet_init_ne {σ : Type} (st : DictStore σ) (name : Option String) (r : Nat)
    (h : r ≠ st.next) :
    storeGet (TranspilerPipeline_init st name).2 r = storeGet st r := by
  unfold storeGet TranspilerPipeline_init
  rw [pyDictGet_append]
  cases hd : pyDictGet st.dicts r <;> simp [pyDictGet, Ne.symm h]

/-- The remainder left by dropWhile is no longer than the input. -/
theorem length_dropWhile_le (p : Char → Bool) (l : List Char) :
    (l.dropWhile p).length ≤ l.length := by
  conv_rhs => rw [← List.takeWhile_append_dropWhile p l]
  rw [List.length_append]
  omega

/-- A successful splitFirst strictly shortens the input. -/
theorem splitFirst_length (c : Char) (l a b : List Char) (h : splitFirst c l = some (a, b)) :
    b.length < l.length := by
  unfold splitFirst at h
  cases hd : l.dropWhile (fun x => x != c) with
  | nil => rw [hd] at h; cases h
  | cons x after =>
    rw [hd] at h
    cases h
    have hle := length_dropWhile_le (fun x => x != c) l
    rw [hd] at hle
    simp at hle
    omega

/-- A successful dropLit consumes exactly the literal's length. -/
theorem dropLit_length (p l r : List Char) (h : dropLit p l = some r) :
    p.length + r.length = l.length := by
  induction p generalizing l with
  | nil => unfold dropLit at h; cases h; simp
  | cons ph ps ih =>
    cases l with
    | nil => simp [dropLit] at h
    | cons c cs =>
      unfold dropLit at h
      by_cases hc : c = ph
      · rw [if_pos hc] at h
        have := ih cs h
        simp only [List.length_cons]
        omega
      · rw [if_neg hc] at h; cases h

/-- When takeWhile captured at least one character, dropWhile strictly
shortens the input. -/
theorem length_dropWhile_lt_of_takeWhile_ne (p : Char → Bool) (l : List Char)
    (h : ¬(l.takeWhile p).isEmpty = true) : (l.dropWhile p).length < l.length := by
  have hlen : (l.takeWhile p).length + (l.dropWhile p).length = l.length := by
    conv_rhs => rw [← List.takeWhile_append_dropWhile p l]
    rw [List.length_append]
  cases hl : l.takeWhile p with
  | nil => rw [hl] at h; exact absurd rfl h
  | cons a as => rw [hl] at hlen; simp only [List.length_cons] at hlen; omega

/-- A successful include match strictly shortens the input, so the findall
fuel of reFindall never runs out. -/
theorem matchIncludeAt_consumes (l g r : List Char) (h : matchIncludeAt l = some (g, r)) :
    r.length < l.length := by
  simp only [matchIncludeAt] at h
  repeat' split at h
  all_goals cases h
  rename_i x1 r0 hdrop hw r1 r2 hdw x2 r4 hg hsplit
  have h1 : 7 + r0.length = l.length := by simpa using dropLit_length _ _ _ hdrop
  have h2 := length_dropWhile_le isPySpace r0
  rw [hdw] at h2
  simp only [List.length_cons] at h2
  have h3 := splitFirst_length _ _ _ _ hsplit
  simp only [List.length_cons] at h3
  omega

/-- A successful qreg/creg match strictly shortens the input. -/
theorem matchRegAt_consumes (kw l : List Char) (g : List Char × List Char) (r : List Char)
    (h : matchRegAt kw l = some (g, r)) : r.length < l.length := by
  simp only [matchRegAt] at h
  repeat' split at h
  all_goals cases h
  rename_i x1 r0 hdrop hw hname r2 r3 hbr hd3 r4 hdig
  have h1 := dropLit_length _ _ _ hdrop
  have h2 := length_dropWhile_le isPySpace r0
  have h3 := length_dropWhile_le isPyWord (r0.dropWhile isPySpace)
  rw [hbr] at h3
  simp only [List.length_cons] at h3
  have h4 := length_dropWhile_le isPyDigit r3
  rw [hdig] at h4
  simp only [List.length_cons] at h4
  omega

/-- A successful gate match strictly shortens the input. -/
theorem matchGateAt_consumes (l : List Char) (g : List Char × List Char × List Char)
    (r : List Char) (h : matchGateAt l = some (g, r)) : r.length < l.length := by
  simp only [matchGateAt] at h
  repeat' split at h
  all_goals cases h
  rename_i a1 r0 hdrop a2 a3 a4 a5 ps r5 hbrace a6 a7 a8 a9 body a10 hbody
  have h1 : 4 + r0.length = l.length := by simpa using dropLit_length _ _ _ hdrop
  have h2 := length_dropWhile_le isPySpace r0
  have h3 := length_dropWhile_le isPyWord (r0.dropWhile isPySpace)
  have h4 := length_dropWhile_le isPySpace ((r0.dropWhile isPySpace).dropWhile isPyWord)
  have h5 := splitFirst_length _ _ _ _ hbrace
  have h6 := splitFirst_length _ _ _ _ hbody
  omega

/-- A successful operation match strictly shortens the input. -/
theorem matchOpAt_consumes (l : List Char) (g : List Char × List Char × List Char)
    (r : List Char) (h : matchOpAt l = some (g, r)) : r.length < l.length := by
  simp only [matchOpAt] at h
  repeat' split at h
  all_goals cases h
  · rename_i hname x2 ps r5 hpq hw x1 q1 hq x0 cw hd tl hrev hsplit
    have hlt := length_dropWhile_lt_of_takeWhile_ne isPyWord l hname
    have hps : r5.length ≤ (l.dropWhile isPyWord).length := by
      split at hpq
      · rename_i r2 hpar
        split at hpq
        · rename_i ps2 r3 hsp
          cases hpq
          have h5 := splitFirst_length _ _ _ _ hsp
          rw [hpar]
          simp only [List.length_cons]
          omega
        · cases hpq
      · cases hpq
        exact Nat.le_refl _
    have h2 := length_dropWhile_le isPySpace r5
    have h3 := splitFirst_length _ _ _ _ hsplit
    omega
  · rename_i hname x1 ps r5 hpq hw x0 q1 hqne hsplit
    have hlt := length_dropWhile_lt_of_takeWhile_ne isPyWord l hname
    have hps : r5.length ≤ (l.dropWhile isPyWord).length := by
      split at hpq
      · rename_i r2 hpar
        split at hpq
        · rename_i ps2 r3 hsp
          cases hpq
          have h5 := splitFirst_length _ _ _ _ hsp
          rw [hpar]
          simp only [List.length_cons]
          omega
        · cases hpq
      · cases hpq
        exact Nat.le_refl _
    have h2 := length_dropWhile_le isPySpace r5
    have h3 := splitFirst_length _ _ _ _ hsplit
    omega

/-- For a matcher whose successes strictly shorten the input, the findall
scan is fuel-indifferent from the input length upward: the fuel
reFindall starts with can never run out. -/
theorem reFindallFuel_congr {G : Type} (matchAt : List Char → Option (G × List Char))
    (hdec : ∀ l g r, matchAt l = some (g, r) → r.length < l.length) :
    ∀ (fuel₁ fuel₂ : Nat) (l : List Char), l.length ≤ fuel₁ → l.length ≤ fuel₂ →
      reFindallFuel matchAt fuel₁ l = reFindallFuel matchAt fuel₂ l := by
  intro fuel₁
  induction fuel₁ with
  | zero =>
    intro fuel₂ l h1 _
    have hnil : l = [] := List.length_eq_zero.mp (Nat.le_zero.mp h1)
    subst hnil
    cases fuel₂ <;> rfl
  | succ f₁ ih =>
    intro fuel₂ l h1 h2
    cases l with
    | nil => cases fuel₂ <;> rfl
    | cons c rest =>
      cases fuel₂ with
      | zero => simp at h2
      | succ f₂ =>
        cases hm : matchAt (c :: rest) with
        | some gr =>
          obtain ⟨g, after⟩ := gr
          have hlen := hdec _ _ _ hm
          simp only [List.length_cons] at h1 h2 hlen
          simp only [reFindallFuel, hm]
          rw [ih f₂ after (by omega) (by omega)]
        | none =>
          simp only [List.length_cons] at h1 h2
          simp only [reFindallFuel, hm]
          exact ih f₂ rest (by omega) (by omega)

/-- Any fuel at least the input length computes reFindall exactly. -/
theorem reFindallFuel_eq_of_le {G : Type} (matchAt : List Char → Option (G × List Char))
    (hdec : ∀ l g r, matchAt l = some (g, r) → r.length < l.length)
    (fuel : Nat) (l : List Char) (h : l.length ≤ fuel) :
    reFindallFuel matchAt fuel l = reFindall matchAt l :=
  reFindallFuel_congr matchAt hdec fuel l.length l h (Nat.le_refl _)

/-- Claim C1: the round-trip law fails on the IR the parser produces from
gateRoundTripSource — the serialized text repeats the gate-body operation
x a as a top-level statement, and reparsing collects it twice, so
parse(serialize(ir)) has a different operations list than ir. -/
theorem parse_serialize_roundtrip_fails :
    (parse_qasm_content gateRoundTripSource).operations = [⟨"x", "", "a"⟩] ∧
    (parse_qasm_content (circuit_to_qasm (parse_qasm_content gateRoundTripSource))).operations
      = [⟨"x", "", "a"⟩, ⟨"x", "", "a"⟩] ∧
    parse_qasm_content (circuit_to_qasm (parse_qasm_content gateRoundTripSource)) ≠
      parse_qasm_content gateRoundTripSource := by
  refine ⟨by decide, by decide, by decide⟩

/-- Claim C2 (counterexample): at optimization level 4 the first exception
raised by optimize_circuit is the KeyError from the
OPTIMIZATION_LEVELS[optimization_level] lookup in the line-99 log message,
not the TypeError the claim asserts for every optimization level. -/
theorem optimize_circuit_level4_keyError :
    optimize_circuit hhcxCircuit 2 none 4 = .error PyErr.keyError ∧
    PyErr.keyError ≠ PyErr.typeError :=
  ⟨rfl, by decide⟩

/-- Claim C2 (amended): for levels 0-3, optimize_circuit raises TypeError at
the get_pass_manager(optimization_level) call before applying any pass or
attaching optimization_stats; for every other level it raises KeyError even
earlier, at the OPTIMIZATION_LEVELS lookup.  In all cases the success path
is unreachable. -/
theorem optimize_circuit_always_raises (c : Circuit) (n : Nat) (t : Option Int) (l : Int) :
    optimize_circuit c n t l =
      .error (if l = 0 ∨ l = 1 ∨ l = 2 ∨ l = 3 then PyErr.typeError else PyErr.keyError) := by
  by_cases h0 : l = 0
  · subst h0; rfl
  by_cases h1 : l = 1
  · subst h1; rfl
  by_cases h2 : l = 2
  · subst h2; rfl
  by_cases h3 : l = 3
  · subst h3; rfl
  have hnone : pyDictGet OPTIMIZATION_LEVELS l = none := by
    simp only [OPTIMIZATION_LEVELS, pyDictGet]
    rw [if_neg (fun h => h0 h.symm), if_neg (fun h => h1 h.symm),
        if_neg (fun h => h2 h.symm), if_neg (fun h => h3 h.symm)]
  unfold optimize_circuit
  rw [hnone]
  simp [h0, h1, h2, h3]
  rfl

/-- Claim C3: on the circuit h q[0]; h q[0]; cx q[0],q[1] at level 1 the code
as written raises TypeError (the get_pass_manager slip), against the claimed
result; the claimed behavior is exactly what the optimization logic produces
once that slip is repaired: the gate-cancellation scan leaves only the cx
operation and the recorded gate_reduction is 2. -/
theorem level1_cancellation_vs_typeError :
    optimize_circuit hhcxCircuit 2 none 1 = .error PyErr.typeError ∧
    (cancel_adjacent_gates hhcxCircuit).operations = [⟨"cx", "", "q[0],q[1]"⟩] ∧
    (∃ c', optimize_circuit_fixed hhcxCircuit 2 none 1 = .ok c' ∧
      c'.operations = [⟨"cx", "", "q[0],q[1]"⟩] ∧
      c'.optimization_stats.map (fun s => s.gate_reduction) = some 2) := by
  refine ⟨rfl, ?_, ⟨_, rfl, ?_, ?_⟩⟩ <;>
    simp [optimize_passes_and_stats, cancel_adjacent_gates, cancelGo, hhcxCircuit,
      fold_adjoint_gates, Id.run, estimate_circuit_depth]

/-- Claim C4: the depth estimator is len(operations) // 2 + 1, not the
DAG critical path the spec requires: on h q[0]; h q[1] it answers 2 where the
critical path is 1, and on h q[0]; h q[0]; h q[0] it answers 2 where the
critical path is 3. -/
theorem estimate_circuit_depth_not_critical_path :
    estimate_circuit_depth parallelHHCircuit = 2 ∧ critical_path_depth parallelHHCircuit = 1 ∧
    estimate_circuit_depth tripleHCircuit = 2 ∧ critical_path_depth tripleHCircuit = 3 :=
  ⟨rfl, rfl, rfl, rfl⟩

/-- Claim C5: at level 0 the code as written raises TypeError for every
input (the get_pass_manager slip), against the claimed no-op; with the slip
repaired, level 0 returns the circuit with the operations list (and every
other field) unchanged and only optimization_stats attached. -/
theorem level0_noop_vs_typeError (c : Circuit) (n : Nat) (t : Option Int) :
    optimize_circuit c n t 0 = .error PyErr.typeError ∧
    ∃ stats, optimize_circuit_fixed c n t 0 = .ok { c with optimization_stats := some stats } :=
  ⟨rfl, ⟨_, rfl⟩⟩

/-- Claim C6: a stage whose first pass raises re-raises that same exception
from Stage.run, for every choice of the later passes (so no later pass is
consulted, and in particular pass B of a stage [A, B] is never invoked);
passes run strictly in list order. -/
theorem stage_fail_fast {σ : Type} (name description : String) (A : TranspilerPass σ)
    (c : σ) (options : Option PyKwargs) (e : PyErr)
    (hA : A.run c (pyOrDict options) = .error e) :
    (∀ B : TranspilerPass σ,
      TranspilerStage.run ⟨name, description, [A, B]⟩ c options = .error e) ∧
    (∀ rest : List (TranspilerPass σ),
      TranspilerStage.run ⟨name, description, A :: rest⟩ c options = .error e) := by
  constructor <;> intro x <;> simp [TranspilerStage.run, runPasses, hA]

/-- Witness for stage_fail_fast at a concrete stage [A, B]. -/
theorem stage_fail_fast_witness :
    TranspilerStage.run ⟨"S", "stage", [failingPassA, okPassB]⟩ 0 none =
      .error (PyErr.exc "boom") :=
  (stage_fail_fast "S" "stage" failingPassA 0 none (PyErr.exc "boom") rfl).1 okPassB

/-- Claim C7: on the circuit h q[0]; x q[1]; h q[0] at level 1 the code as
written raises TypeError (the get_pass_manager slip); the claimed behavior
holds for the optimization logic once that slip is repaired: gate
cancellation compares only list-adjacent operations, so all three
operations survive. -/
theorem non_cancelling_adjacency_vs_typeError :
    optimize_circuit hxhCircuit 2 none 1 = .error PyErr.typeError ∧
    (cancel_adjacent_gates hxhCircuit).operations = hxhCircuit.operations ∧
    (∃ c', optimize_circuit_fixed hxhCircuit 2 none 1 = .ok c' ∧
      c'.operations = hxhCircuit.operations) := by
  refine ⟨rfl, ?_, ⟨_, rfl, ?_⟩⟩ <;>
    simp [optimize_passes_and_stats, cancel_adjacent_gates, cancelGo, hxhCircuit,
      fold_adjoint_gates, Id.run, estimate_circuit_depth]

/-- Claim C8: create_pass returns None (and raises nothing) on an unknown
name and on a raising constructor; create_pipeline on an unknown template
name returns a fresh empty usable pipeline — no stages, the given name
(defaulted if empty), and a freshly allocated empty registered_passes
dict — and raises nothing. -/
theorem unknown_names_degrade_gracefully {σ : Type} (pm : PassManager σ) (name : String)
    (kwargs : PyKwargs) (st : DictStore σ)
    (hwf : ∀ kv ∈ st.dicts, kv.1 < st.next) :
    (pyDictGet pm.pass_classes name = none → pm.create_pass name kwargs = none) ∧
    (∀ cls e, pyDictGet pm.pass_classes name = some cls → cls.init kwargs = .error e →
      pm.create_pass name kwargs = none) ∧
    (pyDictGet pm.pipeline_templates name = none →
      (pm.create_pipeline (some name) st).1.stages = [] ∧
      (pm.create_pipeline (some name) st).1.name = pyOrStr (some name) "Quantum Transpiler Pipeline" ∧
      storeGet (pm.create_pipeline (some name) st).2
        (pm.create_pipeline (some name) st).1.registered_passes = []) := by
  refine ⟨?_, ?_, ?_⟩
  · intro h
    simp [PassManager.create_pass, PassManager.get_pass_class, h]
  · intro cls e hcls he
    simp [PassManager.create_pass, PassManager.get_pass_class, hcls, he]
  · intro h
    have hrun : pm.create_pipeline (some name) st = TranspilerPipeline_init st (some name) := by
      simp [PassManager.create_pipeline, PassManager.get_pipeline_template, h]
    rw [hrun]
    refine ⟨rfl, rfl, ?_⟩
    unfold TranspilerPipeline_init storeGet
    rw [pyDictGet_append, pyDictGet_none_of_keys_lt st.dicts st.next hwf]
    simp [pyDictGet]

/-- Witness for unknown_names_degrade_gracefully at concrete inputs. -/
theorem unknown_names_degrade_gracefully_witness :
    emptyPassManager.create_pass "DoesNotExist" [] = none ∧
    badOnlyPassManager.create_pass "Bad" [] = none ∧
    (emptyPassManager.create_pipeline (some "DoesNotExist") emptyStore).1.stages = [] ∧
    storeGet (emptyPassManager.create_pipeline (some "DoesNotExist") emptyStore).2
      (emptyPassManager.create_pipeline (some "DoesNotExist") emptyStore).1.registered_passes
      = [] := by
  have hwf : ∀ kv ∈ emptyStore.dicts, kv.1 < emptyStore.next := by simp [emptyStore]
  refine ⟨?_, ?_, ?_, ?_⟩
  · exact (unknown_names_degrade_gracefully emptyPassManager "DoesNotExist" [] emptyStore hwf).1
      rfl
  · exact (unknown_names_degrade_gracefully badOnlyPassManager "Bad" [] emptyStore hwf).2.1
      badPassClass (PyErr.exc "ctor failed") rfl rfl
  · exact ((unknown_names_degrade_gracefully emptyPassManager "DoesNotExist" [] emptyStore
      hwf).2.2 rfl).1
  · exact ((unknown_names_degrade_gracefully emptyPassManager "DoesNotExist" [] emptyStore
      hwf).2.2 rfl).2.2

/-- Claim C9 (counterexample): on the IR parsed from a source with no
version header, the serializer does not omit the OPENQASM header line — it
emits the literal line OPENQASM None; as the first output line. -/
theorem serializer_header_not_omitted :
    (parse_qasm_content noVersionSource).version = none ∧
    qasm_lines (parse_qasm_content noVersionSource) =
      ["OPENQASM None;", "qreg q[1];", "h q[0];"] ∧
    ¬ (∀ line ∈ qasm_lines (parse_qasm_content noVersionSource),
        ¬ (strStartsWith "OPENQASM" line)) := by
  refine ⟨by decide, by decide, ?_⟩
  intro hall
  exact hall "OPENQASM None;" (by decide) (by decide)

/-- Claim C9 (amended): for every IR whose version is None, the serializer
emits the header line as the literal OPENQASM None; (rather than omitting
it), followed as usual by the include, qreg, creg, gate-definition and
operation lines. -/
theorem serializer_version_none_line (circuit : Circuit) (h : circuit.version = none) :
    qasm_lines circuit = "OPENQASM None;" ::
      (include_lines circuit ++ qreg_lines circuit ++ creg_lines circuit ++
        gate_lines circuit ++ operation_lines circuit) := by
  simp [qasm_lines, version_line, h, pyStrOfOptVersion]

/-- Witness for serializer_version_none_line at the parsed noVersionSource
IR. -/
theorem serializer_version_none_line_witness :
    qasm_lines (parse_qasm_content noVersionSource) = "OPENQASM None;" ::
      (include_lines (parse_qasm_content noVersionSource) ++
        qreg_lines (parse_qasm_content noVersionSource) ++
        creg_lines (parse_qasm_content noVersionSource) ++
        gate_lines (parse_qasm_content noVersionSource) ++
        operation_lines (parse_qasm_content noVersionSource)) :=
  serializer_version_none_line (parse_qasm_content noVersionSource) (by decide)

/-- Claim C10: after cloning a pipeline from a registered template and
registering a further pass class on the clone, the template's own
registered_passes dict is unchanged, and the clone's dict is a different
object than the template's. -/
theorem create_pipeline_registry_isolation {σ : Type} (pm : PassManager σ) (tname : String)
    (template : TranspilerPipeline σ) (st : DictStore σ) (cls : PassClass σ)
    (htmpl : pyDictGet pm.pipeline_templates tname = some template)
    (hlt : template.registered_passes < st.next) :
    storeGet
      ((pm.create_pipeline (some tname) st).1.register_pass cls
        (pm.create_pipeline (some tname) st).2)
      template.registered_passes
      = storeGet st template.registered_passes ∧
    (pm.create_pipeline (some tname) st).1.registered_passes ≠ template.registered_passes := by
  have hne : template.registered_passes ≠ st.next := Nat.ne_of_lt hlt
  have hred : pm.create_pipeline (some tname) st =
      (let pr := TranspilerPipeline_init st (some template.name)
       let pipeline := { pr.1 with
         stages := template.stages.map (fun stage =>
           { (mkTranspilerStage stage.name (some stage.description) : TranspilerStage σ) with
               passes := stage.passes }) }
       let st2 := (storeGet pr.2 template.registered_passes).foldl
         (fun acc kv => pipeline.register_pass kv.2 acc) pr.2
       (pipeline, st2)) := by
    simp only [PassManager.create_pipeline, PassManager.get_pipeline_template, htmpl]
  rw [hred]
  simp only []
  constructor
  · rw [TranspilerPipeline.register_pass]
    rw [storeGet_storeSet_ne _ _ _ _ (by simpa [TranspilerPipeline_init] using hne)]
    rw [storeGet_foldRegister_ne _ _ _ _ (by simpa [TranspilerPipeline_init] using hne)]
    exact storeGet_init_ne st _ _ hne
  · simpa [TranspilerPipeline_init] using Ne.symm hne

/-- Witness for create_pipeline_registry_isolation at concrete inputs. -/
theorem create_pipeline_registry_isolation_witness :
    storeGet
      ((c10PassManager.create_pipeline (some "default") c10Store).1.register_pass badPassClass
        (c10PassManager.create_pipeline (some "default") c10Store).2)
      c10Template.registered_passes
      = storeGet c10Store c10Template.registered_passes ∧
    (c10PassManager.create_pipeline (some "default") c10Store).1.registered_passes ≠
      c10Template.registered_passes :=
  create_pipeline_registry_isolation c10PassManager "default" c10Template c10Store badPassClass
    rfl (by decide)
